import Mathlib

/-!
Verification of the A2A multi-agent host (agent-card resolution, OAuth
client-credentials token fetch, and the message-routing protocol client)
against its natural-language specification.  The Python sources are shallowly
embedded: pure functions become Lean functions, network calls become explicit
oracles passed as arguments, and the entrypoint's side effects become an
explicit effect trace.
-/

/-- Role of a message in a task history (`a2a.types.Role`). -/
inductive Role where
  | user
  | agent
  deriving DecidableEq, Repr

/-- A content part; in the source a part's text is reached as
`part.root.text`, so a part is represented by that text. -/
structure TextPart where
  text : String
  deriving DecidableEq, Repr

/-- `a2a.types.Message` as the decoder uses it: a role plus ordered content
parts. -/
structure Msg where
  role : Role
  parts : List TextPart
  deriving DecidableEq, Repr

/-- An artifact of a task reply: its ordered content parts. -/
structure Artifact where
  parts : List TextPart
  deriving DecidableEq, Repr

/-- The fields of a task reply that the decoder reads
(`a2a.types.Task`): the artifacts list and the message history. -/
structure TaskReply where
  artifacts : List Artifact
  history : List Msg
  deriving DecidableEq, Repr

/-- The text content of a message: the text of its first part
(`msg.parts[0].root.text`), empty when the message has no parts (this
codebase always reads a message's text from `parts[0]`). -/
def msgText (m : Msg) : String := (m.parts.headD ⟨""⟩).text

/-- The fallback branch of `format_agent_response`
(host_invocation_example.py, lines 77-82): the list comprehension
`[msg.parts[0].root.text for msg in response.history if msg.role.value ==
'agent' and msg.parts]` followed by `''.join(...)`. -/
def agent_history_text (history : List Msg) : String :=
  String.join
    ((history.filter fun m => m.role == Role.agent && !m.parts.isEmpty).map msgText)

/-- `format_agent_response` (host_invocation_example.py, lines 68-82): when
`response.artifacts` is non-empty and `artifacts[0].parts` is non-empty,
return `artifacts[0].parts[0].root.text`; otherwise fall back to joining the
agent-role history texts. -/
def format_agent_response (response : TaskReply) : String :=
  match response.artifacts with
  | artifact :: _ =>
      match artifact.parts with
      | p :: _ => p.text
      | [] => agent_history_text response.history
  | [] => agent_history_text response.history

lemma string_join_cons (s : String) (l : List String) :
    String.join (s :: l) = s ++ String.join l :=
  String.ext (by simp)

lemma agent_history_text_cons (m : Msg) (t : List Msg) :
    agent_history_text (m :: t) =
      (if m.role == Role.agent && !m.parts.isEmpty then msgText m else "") ++
        agent_history_text t := by
  by_cases h : (m.role == Role.agent && !m.parts.isEmpty) = true
  · simp [agent_history_text, List.filter_cons, h, string_join_cons]
  · simp [agent_history_text, List.filter_cons, h]

lemma agent_history_text_eq_filter_role (history : List Msg) :
    agent_history_text history =
      String.join ((history.filter fun m => m.role == Role.agent).map msgText) := by
  induction history with
  | nil => rfl
  | cons m t ih =>
    rw [agent_history_text_cons, ih]
    rcases hr : (m.role == Role.agent) with _ | _
    · simp [List.filter_cons, hr]
    · rcases hp : m.parts with _ | ⟨p, ps⟩
      · have hm : msgText m = "" := by simp [msgText, hp]
        simp [List.filter_cons, hr, hp, string_join_cons, hm]
      · simp [List.filter_cons, hr, hp, string_join_cons]

/-- C1: the decoder returns `artifacts[0].parts[0]`'s text whenever the
artifacts list is non-empty and that artifact has at least one part; when no
artifacts are present it returns the concatenation, in history order, of the
text content of the agent-role history messages. -/
theorem format_agent_response_correct (r : TaskReply) :
    (∀ a arest p ps, r.artifacts = a :: arest → a.parts = p :: ps →
        format_agent_response r = p.text) ∧
    (r.artifacts = [] →
        format_agent_response r =
          String.join ((r.history.filter fun m => m.role == Role.agent).map msgText)) := by
  constructor
  · intro a arest p ps ha hp
    simp [format_agent_response, ha, hp]
  · intro ha
    simp [format_agent_response, ha, agent_history_text_eq_filter_role]

/-- Witness for `format_agent_response_correct` at concrete replies. -/
theorem format_agent_response_correct_witness :
    format_agent_response
        ⟨[⟨[⟨"answer"⟩, ⟨"extra"⟩]⟩], [⟨Role.agent, [⟨"hi"⟩]⟩]⟩ = "answer" ∧
    format_agent_response
        ⟨[], [⟨Role.user, [⟨"q"⟩]⟩, ⟨Role.agent, [⟨"a"⟩]⟩, ⟨Role.agent, [⟨"b"⟩]⟩]⟩
      = "ab" := by
  constructor
  · exact (format_agent_response_correct _).1 ⟨[⟨"answer"⟩, ⟨"extra"⟩]⟩ []
      ⟨"answer"⟩ [⟨"extra"⟩] rfl rfl
  · have h := (format_agent_response_correct
      ⟨[], [⟨Role.user, [⟨"q"⟩]⟩, ⟨Role.agent, [⟨"a"⟩]⟩, ⟨Role.agent, [⟨"b"⟩]⟩]⟩).2 rfl
    rw [h]
    decide

/-- C6 counterexample: on a reply with no artifacts and an empty history the
decoder silently returns the empty string; no error of any kind is raised
(the source has no `ProtocolDecodeError` path at all). -/
theorem format_agent_response_empty_silent :
    format_agent_response ⟨[], []⟩ = "" := by decide

/-- C6 amended: when a reply cannot be decoded from artifacts (no artifacts,
or the first artifact has no parts), the decoder falls back to concatenating
the agent-role history texts and returns that string even when it is empty. -/
theorem format_agent_response_fallback_total (r : TaskReply)
    (h : r.artifacts = [] ∨ ∃ a rest, r.artifacts = a :: rest ∧ a.parts = []) :
    format_agent_response r = agent_history_text r.history := by
  rcases h with h | ⟨a, rest, ha, hp⟩
  · simp [format_agent_response, h]
  · simp [format_agent_response, ha, hp]

/-- Witness for `format_agent_response_fallback_total`: a reply whose only
artifact has no parts decodes to the (empty) history fallback. -/
theorem format_agent_response_fallback_total_witness :
    format_agent_response ⟨[⟨[]⟩], []⟩ = agent_history_text [] :=
  format_agent_response_fallback_total ⟨[⟨[]⟩], []⟩ (Or.inr ⟨⟨[]⟩, [], rfl, rfl⟩)

/-- `IdentityProviderConfig`: the keys of the SSM JSON blob that
`get_bearer_token` (agent.py, lines 39-64) reads. -/
structure IdpConfig where
  domain : String
  user_pool_id : String
  client_id : String
  client_secret : String
  resource_server_identifier : String
  scopes : List String
  deriving DecidableEq, Repr

/-- The scope tokens `[f"{resource_server}/{scope}" for scope in scopes]`
(agent.py, line 47). -/
def scope_tokens (resource_server : String) (scopes : List String) : List String :=
  scopes.map (fun scope => resource_server ++ "/" ++ scope)

/-- `scope_str = " ".join(...)` (agent.py, line 47). -/
def scope_str (resource_server : String) (scopes : List String) : String :=
  String.intercalate " " (scope_tokens resource_server scopes)

/-- Python `user_pool_id.split("_")[0]` (agent.py, line 42): the prefix of
the string before its first underscore (the whole string when it has none). -/
def user_pool_region (s : String) : String :=
  String.mk (s.data.takeWhile (fun c => c != '_'))

/-- An HTTP form POST request, as `get_bearer_token` builds one. -/
structure TokenRequest where
  url : String
  body : List (String × String)
  deriving DecidableEq, Repr

/-- The identity provider's answer: an HTTP status and the `access_token`
field of the response JSON when present. -/
structure TokenResponse where
  status : Nat
  access_token : Option String
  deriving DecidableEq, Repr

/-- Failures of the token fetch: a non-2xx response
(`response.raise_for_status()`) or a response JSON without `access_token`. -/
inductive AuthError where
  | httpStatus (status : Nat)
  | missingAccessToken
  deriving DecidableEq, Repr

/-- The request `get_bearer_token` sends (agent.py, lines 41-54): the Cognito
token endpoint for the domain and the region embedded in the user pool id,
with the client-credentials form body. -/
def token_request (idp : IdpConfig) : TokenRequest :=
  { url := "https://" ++ idp.domain ++ ".auth." ++ user_pool_region idp.user_pool_id ++
      ".amazoncognito.com/oauth2/token"
    body := [("grant_type", "client_credentials"),
             ("client_id", idp.client_id),
             ("client_secret", idp.client_secret),
             ("scope", scope_str idp.resource_server_identifier idp.scopes)] }

/-- `get_bearer_token` (agent.py, lines 39-64), the network call abstracted as
`post`: build the token request, send it, raise for a non-2xx status, return
the `access_token` field of the response JSON. -/
def get_bearer_token (idp : IdpConfig) (post : TokenRequest → TokenResponse) :
    Except AuthError String :=
  let response := post (token_request idp)
  if 200 ≤ response.status ∧ response.status < 300 then
    match response.access_token with
    | some token => .ok token
    | none => .error .missingAccessToken
  else
    .error (.httpStatus response.status)

lemma intercalate_go_eq (acc s : String) (l : List String) :
    String.intercalate.go acc s l = acc ++ String.join (l.map (fun a => s ++ a)) := by
  induction l generalizing acc with
  | nil => simp [String.intercalate.go, String.join]
  | cons b bs ih =>
    simp [String.intercalate.go, ih, string_join_cons, String.append_assoc]

lemma intercalate_cons (s a : String) (l : List String) :
    String.intercalate s (a :: l) = a ++ String.join (l.map (fun b => s ++ b)) := by
  simp [String.intercalate, intercalate_go_eq]

lemma count_space_join_sep (l : List String) (h : ∀ a ∈ l, ' ' ∉ a.data) :
    ((String.join (l.map (fun a => " " ++ a))).data.count ' ') = l.length := by
  induction l with
  | nil => simp [String.join]
  | cons a as ih =>
    have ha : ' ' ∉ a.data := h a (List.mem_cons_self a as)
    have hrest : ∀ b ∈ as, ' ' ∉ b.data := fun b hb => h b (List.mem_cons_of_mem a hb)
    rw [List.map_cons, string_join_cons, String.data_append, String.data_append,
      List.count_append, List.count_append, List.length_cons, ih hrest]
    have h1 : List.count ' ' " ".data = 1 := by decide
    have h2 : List.count ' ' a.data = 0 := List.count_eq_zero.mpr ha
    omega

lemma takeWhile_append_cons (l r : List Char) (c : Char) (p : Char → Bool)
    (hl : ∀ x ∈ l, p x = true) (hc : p c = false) :
    ((l ++ c :: r).takeWhile p) = l := by
  induction l with
  | nil => simp [List.takeWhile_cons, hc]
  | cons a t ih =>
    have ha : p a = true := hl a (List.mem_cons_self a t)
    have ht : ∀ x ∈ t, p x = true := fun x hx => hl x (List.mem_cons_of_mem a hx)
    simp [List.takeWhile_cons, ha, ih ht]

lemma scope_tokens_no_space (rs : String) (scopes : List String)
    (hrs : ' ' ∉ rs.data) (hsc : ∀ sc ∈ scopes, ' ' ∉ sc.data) :
    ∀ t ∈ scope_tokens rs scopes, ' ' ∉ t.data := by
  intro t ht
  simp only [scope_tokens, List.mem_map] at ht
  obtain ⟨sc, hmem, rfl⟩ := ht
  intro habs
  rw [String.data_append, String.data_append] at habs
  rcases List.mem_append.mp habs with h1 | h2
  · rcases List.mem_append.mp h1 with h11 | h12
    · exact hrs h11
    · simp at h12
  · exact hsc sc hmem h2

/-- C2: for every identity-provider config whose resource server identifier
and scopes contain no space character, the generated scope string is the
space-separated join of exactly N tokens — the i-th token being
`resource_server_identifier ++ "/" ++ scopes[i]` — it contains exactly N-1
separator spaces, and it is empty for zero scopes. -/
theorem scope_str_correct (idp : IdpConfig)
    (hrs : ' ' ∉ idp.resource_server_identifier.data)
    (hsc : ∀ sc ∈ idp.scopes, ' ' ∉ sc.data) :
    (scope_tokens idp.resource_server_identifier idp.scopes).length = idp.scopes.length ∧
    (∀ i (h : i < idp.scopes.length),
        (scope_tokens idp.resource_server_identifier idp.scopes).get
            ⟨i, by simpa [scope_tokens] using h⟩ =
          idp.resource_server_identifier ++ "/" ++ idp.scopes.get ⟨i, h⟩) ∧
    scope_str idp.resource_server_identifier idp.scopes =
      String.intercalate " " (scope_tokens idp.resource_server_identifier idp.scopes) ∧
    ((scope_str idp.resource_server_identifier idp.scopes).data.count ' ') =
      idp.scopes.length - 1 ∧
    (idp.scopes = [] → scope_str idp.resource_server_identifier idp.scopes = "") := by
  refine ⟨by simp [scope_tokens], ?_, rfl, ?_, ?_⟩
  · intro i h
    simp [scope_tokens]
  · rcases hs : idp.scopes with _ | ⟨s0, rest⟩
    · simp [scope_str, scope_tokens, String.intercalate]
    · have htoks : ∀ t ∈ scope_tokens idp.resource_server_identifier rest, ' ' ∉ t.data := by
        apply scope_tokens_no_space _ _ hrs
        intro sc hsc'
        exact hsc sc (hs ▸ List.mem_cons_of_mem s0 hsc')
      have h0 : ' ' ∉ (idp.resource_server_identifier ++ "/" ++ s0).data := by
        have := scope_tokens_no_space idp.resource_server_identifier [s0] hrs
          (fun sc hsc' => by
            rcases List.mem_singleton.mp hsc' with rfl
            exact hsc sc (hs ▸ List.mem_cons_self sc rest))
        exact this _ (List.mem_singleton.mpr rfl)
      have hcons : scope_tokens idp.resource_server_identifier (s0 :: rest) =
          (idp.resource_server_identifier ++ "/" ++ s0) ::
            scope_tokens idp.resource_server_identifier rest := by
        simp [scope_tokens]
      rw [scope_str, hcons, intercalate_cons, String.data_append, List.count_append,
        List.count_eq_zero.mpr h0, count_space_join_sep _ htoks]
      simp [scope_tokens]
  · intro h
    simp [scope_str, scope_tokens, h, String.intercalate]

/-- Witness for `scope_str_correct`: two scopes give the two expected tokens
joined by a single space. -/
theorem scope_str_correct_witness :
    scope_str "api" ["read", "write"] = "api/read api/write" ∧
    ((scope_str "api" ["read", "write"]).data.count ' ') = 1 := by
  have h := scope_str_correct ⟨"d", "us-east-1_p", "cid", "sec", "api", ["read", "write"]⟩
    (by decide) (by decide)
  refine ⟨by decide, ?_⟩
  simpa using h.2.2.2.1

/-- C9: `get_bearer_token` POSTs to
`https://{domain}.auth.{region}.amazoncognito.com/oauth2/token` where the
region is the prefix of `user_pool_id` before its first underscore, with the
client-credentials form body, and returns the `access_token` field of a 200
response. -/
theorem get_bearer_token_correct (idp : IdpConfig) (post : TokenRequest → TokenResponse) :
    (token_request idp).url =
      "https://" ++ idp.domain ++ ".auth." ++ user_pool_region idp.user_pool_id ++
        ".amazoncognito.com/oauth2/token" ∧
    (∀ p q : String, '_' ∉ p.data → user_pool_region (p ++ "_" ++ q) = p) ∧
    (token_request idp).body =
      [("grant_type", "client_credentials"),
       ("client_id", idp.client_id),
       ("client_secret", idp.client_secret),
       ("scope", scope_str idp.resource_server_identifier idp.scopes)] ∧
    (∀ tok, post (token_request idp) = ⟨200, some tok⟩ →
        get_bearer_token idp post = .ok tok) := by
  refine ⟨rfl, ?_, rfl, ?_⟩
  · intro p q hp
    apply String.ext
    show (((p ++ "_") ++ q).data.takeWhile (fun c => c != '_')) = p.data
    rw [String.data_append, String.data_append]
    have hu : "_".data = ['_'] := rfl
    rw [hu, List.append_assoc, List.singleton_append]
    apply takeWhile_append_cons
    · intro x hx
      have hne : x ≠ '_' := fun habs => hp (habs ▸ hx)
      simpa using hne
    · decide
  · intro tok hpost
    simp [get_bearer_token, hpost]

/-- Witness for `get_bearer_token_correct`: a concrete config and a stub
identity provider returning status 200 with a token. -/
theorem get_bearer_token_correct_witness :
    get_bearer_token ⟨"d", "us-east-1_ABC", "cid", "sec", "api", ["read"]⟩
        (fun _ => ⟨200, some "tok123"⟩) = .ok "tok123" ∧
    user_pool_region ("us-east-1" ++ "_" ++ "ABC") = "us-east-1" := by
  have h := get_bearer_token_correct ⟨"d", "us-east-1_ABC", "cid", "sec", "api", ["read"]⟩
    (fun _ => ⟨200, some "tok123"⟩)
  exact ⟨h.2.2.2 "tok123" rfl, h.2.1 "us-east-1" "ABC" (by decide)⟩

/-- An update event correlated to a task by its id. -/
structure UpdateEvent where
  task_id : String
  deriving DecidableEq, Repr

/-- One value yielded by `client.send_message`: a terminal message, a
`(Task, UpdateEvent|None)` pair, or an arbitrary fallback value (the three
branches of the loop in host_invocation_example.py, lines 185-199). -/
inductive ClientEvent where
  | message (m : Msg)
  | taskPair (t : TaskReply) (u : Option UpdateEvent)
  | raw (s : String)
  deriving DecidableEq, Repr

/-- What `send_sync_message` returns: the message, the task of a pair, or the
fallback value. -/
inductive SyncReply where
  | message (m : Msg)
  | task (t : TaskReply)
  | raw (s : String)
  deriving DecidableEq, Repr

/-- Modelled from the spec: `client.send_message` on a client built by
`ClientFactory(ClientConfig(streaming=False))` — the a2a client library is an
external collaborator, not part of the sources.  Spec 4.6: with
`streaming=false` the lazy sequence collapses to exactly one value: one
terminal `Message`, or one `(Task, UpdateEvent|None)` pair whose task carries
the final state. -/
def send_message_non_streaming (reply : Msg ⊕ (TaskReply × Option UpdateEvent)) :
    List ClientEvent :=
  match reply with
  | .inl m => [.message m]
  | .inr (t, u) => [.taskPair t u]

/-- The event loop of `send_sync_message` (host_invocation_example.py, lines
185-199): iterate the events of `client.send_message(msg)` and return on the
first one — a `Message` as is, of a `(Task, UpdateEvent)` pair the task,
anything else as fallback. -/
def send_sync_message_loop (events : List ClientEvent) : Option SyncReply :=
  match events with
  | [] => none
  | .message m :: _ => some (.message m)
  | .taskPair t _ :: _ => some (.task t)
  | .raw s :: _ => some (.raw s)

/-- C8: for every well-formed remote reply, the non-streaming client yields
exactly one event, and `send_sync_message` returns exactly one decoded value
— the message itself, or the task of the pair. -/
theorem send_sync_message_exactly_one (reply : Msg ⊕ (TaskReply × Option UpdateEvent)) :
    (send_message_non_streaming reply).length = 1 ∧
    (∀ m, reply = .inl m →
        send_sync_message_loop (send_message_non_streaming reply) = some (.message m)) ∧
    (∀ t u, reply = .inr (t, u) →
        send_sync_message_loop (send_message_non_streaming reply) = some (.task t)) := by
  rcases reply with m | ⟨t, u⟩
  · refine ⟨rfl, ?_, ?_⟩
    · intro m' h
      cases h
      rfl
    · intro t' u' h
      cases h
  · refine ⟨rfl, ?_, ?_⟩
    · intro m' h
      cases h
    · intro t' u' h
      cases h
      rfl

/-- Witness for `send_sync_message_exactly_one`: a concrete terminal message
is decoded to exactly that message. -/
theorem send_sync_message_exactly_one_witness :
    send_sync_message_loop (send_message_non_streaming (.inl ⟨Role.agent, [⟨"ok"⟩]⟩)) =
      some (.message ⟨Role.agent, [⟨"ok"⟩]⟩) :=
  (send_sync_message_exactly_one (.inl ⟨Role.agent, [⟨"ok"⟩]⟩)).2.1 _ rfl

/-- An agent capability descriptor: the `name` and `description` of the
well-known metadata document. -/
structure AgentCard where
  name : String
  description : String
  deriving DecidableEq, Repr

/-- One observable side effect of the host entrypoint. -/
inductive Effect where
  | tokenFetch (agent : String)
  | cardResolve (agent : String)
  | yieldCards
  | messageSend
  deriving DecidableEq, Repr

/-- `create_simple_client_factory` (agent.py, lines 66-93) as its sequence of
network effects, with card resolution abstracted as the fallible `fetch`: it
fetches the IDP config and a bearer token, then resolves the agent card with
`A2ACardResolver`, so a card-resolution failure happens after the token
fetch and aborts the factory construction. -/
def create_simple_client_factory_run (fetch : String → Except Unit AgentCard)
    (name : String) : List Effect × Bool :=
  match fetch name with
  | .ok _ => ([.tokenFetch name, .cardResolve name], true)
  | .error _ => ([.tokenFetch name], false)

/-- The loop of `get_root_agent` (agent.py, lines 96-126): one client factory
per configured agent, in configuration order; an exception in one factory
aborts the whole loop. -/
def get_root_agent_run (fetch : String → Except Unit AgentCard) :
    List String → List Effect × Bool
  | [] => ([], true)
  | name :: rest =>
      match create_simple_client_factory_run fetch name with
      | (es, false) => (es, false)
      | (es, true) =>
          let r := get_root_agent_run fetch rest
          (es ++ r.1, r.2)

/-- A `RemoteA2aAgent` proxy as `get_root_agent` constructs one: the
registered name plus the lazily resolved card.  `get_root_agent` passes only
the card URL (`agent_card=agent_card_url`), so a fresh proxy starts
unresolved even though the factory already fetched the card. -/
structure RemoteAgentProxy where
  name : String
  card : Option AgentCard
  deriving DecidableEq, Repr

/-- Modelled from the spec: `RemoteA2aAgent._ensure_resolved` (the google.adk
proxy class is an external collaborator, not part of the sources).  Spec 4.4:
idempotent; on first call it fetches the card from the card URL and caches
it; on subsequent calls it no-ops; on failure the proxy stays unresolved. -/
def ensure_resolved (p : RemoteAgentProxy) (fetch : String → Except Unit AgentCard) :
    Except Unit (RemoteAgentProxy × List Effect) :=
  match p.card with
  | some _ => .ok (p, [])
  | none =>
      match fetch p.name with
      | .ok c => .ok ({ p with card := some c }, [.cardResolve p.name])
      | .error _ => .error ()

/-- The `get_agents_cards` loop of `get_agent_and_card` (agent.py, lines
174-195): `await agent._ensure_resolved()` on every sub-agent in order, with
no error handling, each proxy starting unresolved — one failure aborts the
loop. -/
def get_agents_cards_run (fetch : String → Except Unit AgentCard) :
    List String → List Effect × Bool
  | [] => ([], true)
  | name :: rest =>
      match ensure_resolved ⟨name, none⟩ fetch with
      | .error _ => ([], false)
      | .ok (_, es) =>
          let r := get_agents_cards_run fetch rest
          (es ++ r.1, r.2)

/-- `get_agent_and_card` (agent.py, lines 166-200): build the root agent
(eagerly creating every client factory) and then resolve every sub-agent's
card. -/
def get_agent_and_card_run (fetch : String → Except Unit AgentCard)
    (agents : List String) : List Effect × Bool :=
  match get_root_agent_run fetch agents with
  | (es, false) => (es, false)
  | (es, true) =>
      let r := get_agents_cards_run fetch agents
      (es ++ r.1, r.2)

/-- The turn-level failures of `call_agent` (host_agent_bedrock.py): the
exception for a missing session id, the re-raised initialization exception,
and the `KeyError` for a missing `prompt`. -/
inductive CallError where
  | missingSession
  | initFailure
  | missingPrompt
  deriving DecidableEq, Repr

/-- Python truthiness of an optional string (`if not session_id`, `if not
query`): absent or empty counts as missing. -/
def pyTruthy (s : Option String) : Bool :=
  match s with
  | none => false
  | some st => !(st == "")

/-- `call_agent` (host_agent_bedrock.py, lines 35-99) as a trace of effects
plus outcome: check the session id; when the module-global `root_agent` is
not yet initialized, run `get_agent_and_card` (re-raising its failure) and
yield the agent cards; only then read the `prompt` field and raise `KeyError`
when it is missing; otherwise dispatch the turn through the runner. -/
def call_agent (rootInitialized : Bool) (agents : List String)
    (fetch : String → Except Unit AgentCard)
    (session_id : Option String) (prompt : Option String) :
    List Effect × Option CallError :=
  if !(pyTruthy session_id) then ([], some .missingSession)
  else
    let init :=
      if rootInitialized then ([], true)
      else
        match get_agent_and_card_run fetch agents with
        | (es, false) => (es, false)
        | (es, true) => (es ++ [.yieldCards], true)
    if !init.2 then (init.1, some .initFailure)
    else if !(pyTruthy prompt) then (init.1, some .missingPrompt)
    else (init.1 ++ [.messageSend], none)

/-- A card-resolution oracle that always succeeds. -/
def okFetch : String → Except Unit AgentCard := fun n => .ok ⟨n, ""⟩

/-- A card-resolution oracle failing exactly for `Monitoring_Agent`. -/
def failMonitoringFetch : String → Except Unit AgentCard :=
  fun n => if n == "Monitoring_Agent" then .error () else .ok ⟨n, ""⟩

lemma messageSend_not_mem_factory (fetch : String → Except Unit AgentCard) (n : String) :
    Effect.messageSend ∉ (create_simple_client_factory_run fetch n).1 := by
  cases h : fetch n <;> simp [create_simple_client_factory_run, h]

lemma messageSend_not_mem_root (fetch : String → Except Unit AgentCard)
    (agents : List String) :
    Effect.messageSend ∉ (get_root_agent_run fetch agents).1 := by
  induction agents with
  | nil => simp [get_root_agent_run]
  | cons n rest ih =>
    have hf := messageSend_not_mem_factory fetch n
    cases h : create_simple_client_factory_run fetch n with
    | mk es ok =>
      rw [h] at hf
      cases ok
      · simpa [get_root_agent_run, h] using hf
      · simp [get_root_agent_run, h, List.mem_append]
        exact ⟨hf, ih⟩

lemma ensure_resolved_no_send (p : RemoteAgentProxy)
    (fetch : String → Except Unit AgentCard) (pr : RemoteAgentProxy × List Effect)
    (h : ensure_resolved p fetch = .ok pr) :
    Effect.messageSend ∉ pr.2 := by
  rcases hp : p.card with _ | c
  · rcases hf : fetch p.name with e | c'
    · simp [ensure_resolved, hp, hf] at h
    · simp [ensure_resolved, hp, hf] at h
      simp [← h]
  · simp [ensure_resolved, hp] at h
    simp [← h]

lemma messageSend_not_mem_cards (fetch : String → Except Unit AgentCard)
    (agents : List String) :
    Effect.messageSend ∉ (get_agents_cards_run fetch agents).1 := by
  induction agents with
  | nil => simp [get_agents_cards_run]
  | cons n rest ih =>
    cases h : ensure_resolved ⟨n, none⟩ fetch with
    | error e => simp [get_agents_cards_run, h]
    | ok pr =>
      have hpr := ensure_resolved_no_send ⟨n, none⟩ fetch pr h
      simp [get_agents_cards_run, h, List.mem_append]
      exact ⟨hpr, ih⟩

lemma messageSend_not_mem_init (fetch : String → Except Unit AgentCard)
    (agents : List String) :
    Effect.messageSend ∉ (get_agent_and_card_run fetch agents).1 := by
  cases h : get_root_agent_run fetch agents with
  | mk es ok =>
    have hr := messageSend_not_mem_root fetch agents
    rw [h] at hr
    cases ok
    · simpa [get_agent_and_card_run, h] using hr
    · simp [get_agent_and_card_run, h, List.mem_append]
      exact ⟨hr, messageSend_not_mem_cards fetch agents⟩

/-- C3 counterexample: on the first turn (module-global root agent not yet
initialized) a payload without `prompt` still triggers every token fetch and
card resolution, and the yield of the agent cards, before the `KeyError` —
sub-agents are contacted before the missing-prompt error is raised. -/
theorem call_agent_missing_prompt_first_turn_contacts :
    call_agent false ["Monitoring_Agent", "OpsRemediation_Agent"] okFetch
        (some "s1") none =
      ([.tokenFetch "Monitoring_Agent", .cardResolve "Monitoring_Agent",
        .tokenFetch "OpsRemediation_Agent", .cardResolve "OpsRemediation_Agent",
        .cardResolve "Monitoring_Agent", .cardResolve "OpsRemediation_Agent",
        .yieldCards], some .missingPrompt) := by
  rfl

/-- C3 amended: a missing `prompt` raises the `KeyError` for the turn, but
only after first-turn initialization: when the root agent is already
initialized the turn performs no effect before the error, and a prompt-less
turn never reaches the runner dispatch in any state. -/
theorem call_agent_missing_prompt_correct (agents : List String)
    (fetch : String → Except Unit AgentCard) :
    (∀ sid prompt, pyTruthy (some sid) = true → pyTruthy prompt = false →
        call_agent true agents fetch (some sid) prompt = ([], some .missingPrompt)) ∧
    (∀ rootInit sid prompt, pyTruthy prompt = false →
        Effect.messageSend ∉ (call_agent rootInit agents fetch sid prompt).1) := by
  constructor
  · intro sid prompt hsid hp
    simp [call_agent, hsid, hp]
  · intro rootInit sid prompt hp
    rcases hsid : pyTruthy sid with _ | _
    · simp [call_agent, hsid]
    · cases rootInit
      · cases hi : get_agent_and_card_run fetch agents with
        | mk es ok =>
          have hm := messageSend_not_mem_init fetch agents
          rw [hi] at hm
          cases ok
          · simpa [call_agent, hsid, hi] using hm
          · simp [call_agent, hsid, hi, hp, List.mem_append]
            exact hm
      · simp [call_agent, hsid, hp]

/-- Witness for `call_agent_missing_prompt_correct`: with the root agent
already initialized, a prompt-less turn produces no effect and the
missing-prompt error. -/
theorem call_agent_missing_prompt_correct_witness :
    call_agent true ["Monitoring_Agent"] okFetch (some "s1") none =
      ([], some .missingPrompt) :=
  (call_agent_missing_prompt_correct ["Monitoring_Agent"] okFetch).1 "s1" none rfl rfl

/-- C7 counterexample: when `Monitoring_Agent` fails to resolve during the
first turn's lazy initialization, the whole turn aborts with the re-raised
initialization failure: the sibling `OpsRemediation_Agent` is never
contacted, no message is dispatched, and no per-agent failure marker exists
in any output — the exception is raised past the turn boundary. -/
theorem call_agent_sibling_aborted_by_failure :
    call_agent false ["Monitoring_Agent", "OpsRemediation_Agent"] failMonitoringFetch
        (some "s1") (some "check logs") =
      ([.tokenFetch "Monitoring_Agent"], some .initFailure) := by
  rfl

/-- C7 amended: one proxy's resolution failure aborts the whole turn: with
the first configured agent failing to resolve, `call_agent` stops right
after that agent's token fetch, raises the initialization failure past the
turn boundary, and performs no effect for any sibling agent. -/
theorem call_agent_proxy_failure_aborts (n : String) (rest : List String)
    (fetch : String → Except Unit AgentCard) (hf : fetch n = .error ())
    (sid : String) (hsid : (sid == "") = false) (prompt : Option String) :
    call_agent false (n :: rest) fetch (some sid) prompt =
      ([.tokenFetch n], some .initFailure) := by
  simp [call_agent, pyTruthy, hsid, get_agent_and_card_run, get_root_agent_run,
    create_simple_client_factory_run, hf]

/-- Witness for `call_agent_proxy_failure_aborts` at a concrete failing
oracle. -/
theorem call_agent_proxy_failure_aborts_witness :
    call_agent false ["A", "B"] (fun n => if n == "A" then .error () else .ok ⟨n, ""⟩)
        (some "s") (some "p") = ([.tokenFetch "A"], some .initFailure) :=
  call_agent_proxy_failure_aborts "A" ["B"]
    (fun n => if n == "A" then .error () else .ok ⟨n, ""⟩) rfl "s" rfl (some "p")

/-- C4 counterexample: within a single session initialization the card of
`Monitoring_Agent` is resolved over the network twice — once eagerly inside
`create_simple_client_factory` and once again by the proxy's
`_ensure_resolved`, because `get_root_agent` constructs the `RemoteA2aAgent`
from the card URL and discards the already-fetched card. -/
theorem card_resolved_twice_in_one_session :
    ((call_agent false ["Monitoring_Agent"] okFetch (some "s1") (some "hi")).1.count
        (.cardResolve "Monitoring_Agent")) = 2 := by
  rfl

/-- C4 amended: `ensure_resolved` itself is idempotent — calling it again on
an already-resolved proxy returns the cached card with no further network
effect — but one session initialization still fetches each configured
agent's card twice (once in the factory, once in the proxy). -/
theorem ensure_resolved_idempotent_but_double_fetch :
    (∀ (p : RemoteAgentProxy) (fetch : String → Except Unit AgentCard) p1 es,
        ensure_resolved p fetch = .ok (p1, es) →
        ensure_resolved p1 fetch = .ok (p1, [])) ∧
    (∀ (n : String) (c : AgentCard) (fetch : String → Except Unit AgentCard),
        fetch n = .ok c →
        ((get_agent_and_card_run fetch [n]).1.count (.cardResolve n)) = 2) := by
  constructor
  · intro p fetch p1 es h
    rcases hp : p.card with _ | c
    · rcases hf : fetch p.name with e | c'
      · simp [ensure_resolved, hp, hf] at h
      · simp [ensure_resolved, hp, hf] at h
        obtain ⟨h1, h2⟩ := h
        simp [ensure_resolved, ← h1]
    · simp [ensure_resolved, hp] at h
      obtain ⟨h1, h2⟩ := h
      subst h1
      simp [ensure_resolved, hp]
  · intro n c fetch h
    simp [get_agent_and_card_run, get_root_agent_run, get_agents_cards_run,
      create_simple_client_factory_run, ensure_resolved, h, List.count_cons,
      List.count_nil]

/-- Witness for `ensure_resolved_idempotent_but_double_fetch`: a resolved
proxy re-resolves to itself with no effect, and the one-agent initialization
resolves that agent's card twice. -/
theorem ensure_resolved_idempotent_but_double_fetch_witness :
    ensure_resolved ⟨"Monitoring_Agent", some ⟨"Monitoring_Agent", ""⟩⟩ okFetch =
      .ok (⟨"Monitoring_Agent", some ⟨"Monitoring_Agent", ""⟩⟩, []) ∧
    ((get_agent_and_card_run okFetch ["Monitoring_Agent"]).1.count
        (.cardResolve "Monitoring_Agent")) = 2 := by
  constructor
  · exact ensure_resolved_idempotent_but_double_fetch.1
      ⟨"Monitoring_Agent", none⟩ okFetch
      ⟨"Monitoring_Agent", some ⟨"Monitoring_Agent", ""⟩⟩
      [.cardResolve "Monitoring_Agent"] rfl
  · exact ensure_resolved_idempotent_but_double_fetch.2
      "Monitoring_Agent" ⟨"Monitoring_Agent", ""⟩ okFetch rfl

/-- A bearer token as a value, identified by the agent endpoint it was
fetched for and the session id current when it was fetched. -/
structure SessionToken where
  agent : String
  session : String
  deriving DecidableEq, Repr

/-- What the module-global `root_agent` (host_agent_bedrock.py, line 32)
holds once initialized: the session id that `get_agent_and_card` received
when the root agent was built — baked into every sub-agent client's
`X-Amzn-Bedrock-AgentCore-Runtime-Session-Id` header (agent.py, line 80) —
and the tokens fetched then, one per configured agent. -/
structure RootAgentState where
  boundSession : String
  tokens : List SessionToken
  deriving DecidableEq, Repr

/-- `get_root_agent(session_id)` (agent.py, lines 96-126): one client
factory, hence one bearer token and one bound client, per configured agent,
all carrying `session_id`. -/
def build_root_agent (session_id : String) (agents : List String) : RootAgentState :=
  { boundSession := session_id
    tokens := agents.map (fun n => { agent := n, session := session_id }) }

/-- The root-agent management of `call_agent` (host_agent_bedrock.py, lines
35-71): `global root_agent; if not root_agent: root_agent, _ = await
get_agent_and_card(session_id=session_id, ...)`.  When the global is unset,
build it with the current turn's session id; otherwise reuse it unchanged.
Returns the new global and the root agent used for this turn. -/
def call_agent_root (st : Option RootAgentState) (agents : List String)
    (session_id : String) : Option RootAgentState × RootAgentState :=
  match st with
  | some r => (some r, r)
  | none =>
      let r := build_root_agent session_id agents
      (some r, r)

/-- C5 counterexample: a second turn arriving with a different session id
reuses the root agent — and with it every token and bound client — created
under the first turn's session id: tokens and clients outlive their session
and are reused for a different one. -/
theorem tokens_reused_across_sessions :
    (call_agent_root
        (call_agent_root none ["Monitoring_Agent"] "session-1").1
        ["Monitoring_Agent"] "session-2").2 =
      { boundSession := "session-1"
        tokens := [{ agent := "Monitoring_Agent", session := "session-1" }] } ∧
    ("session-1" : String) ≠ "session-2" := by
  constructor
  · rfl
  · decide

/-- C5 amended: at initialization the root agent holds exactly one bearer
token per configured agent endpoint, all bound to the initializing session
id; but the root agent is a process-global created once, so every later
turn reuses it — and its tokens and clients — whatever that turn's session
id is. -/
theorem session_token_lifecycle (agents : List String) (sid : String) :
    (build_root_agent sid agents).tokens.length = agents.length ∧
    (build_root_agent sid agents).tokens.map (fun t => t.agent) = agents ∧
    (∀ t ∈ (build_root_agent sid agents).tokens, t.session = sid) ∧
    (∀ r sid2, call_agent_root (some r) agents sid2 = (some r, r)) := by
  refine ⟨by simp [build_root_agent], by simp [build_root_agent, Function.comp_def],
    ?_, fun r sid2 => rfl⟩
  intro t ht
  simp only [build_root_agent, List.mem_map] at ht
  obtain ⟨n, hn, rfl⟩ := ht
  rfl

/-- Witness for `session_token_lifecycle` at a concrete two-agent
configuration. -/
theorem session_token_lifecycle_witness :
    (build_root_agent "s1" ["A", "B"]).tokens.length = 2 ∧
    (⟨"A", "s1"⟩ : SessionToken).session = "s1" ∧
    call_agent_root (some (build_root_agent "s1" ["A", "B"])) ["A", "B"] "s2" =
      (some (build_root_agent "s1" ["A", "B"]), build_root_agent "s1" ["A", "B"]) := by
  have h := session_token_lifecycle ["A", "B"] "s1"
  refine ⟨by simpa using h.1, ?_, h.2.2.2 _ "s2"⟩
  exact h.2.2.1 ⟨"A", "s1"⟩ (by simp [build_root_agent])

/-- Python `str.lower` (ASCII agent names), embedded at character level. -/
def pyLower (s : String) : String := String.mk (s.data.map Char.toLower)

/-- Python single-character `str.replace(pat, rep)`, embedded at character
level (for a one-character pattern, replacing every occurrence is a map). -/
def pyReplaceChar (pat rep : Char) (s : String) : String :=
  String.mk (s.data.map (fun c => if c = pat then rep else c))

/-- The name under which a sub-agent proxy is registered (agent.py, line
109): `agent_config['name'].lower().replace('_', '_')`. -/
def registered_agent_name (name : String) : String :=
  pyReplaceChar '_' '_' (pyLower name)

/-- Modelled from the spec: the configured sub-agent names (config.yaml is
not among the sources; spec scenario A names the two configured agents
"Monitoring_Agent" and "OpsRemediation_Agent"). -/
def configured_agent_names : List String :=
  ["Monitoring_Agent", "OpsRemediation_Agent"]

/-- The `agent_descriptions` menu of `get_root_agent` (agent.py, line 117):
`"\n".join(f"- {agent.name}: {agent.description}")` over the constructed
sub-agents, whose names are the registered (lowercased) ones. -/
def agent_descriptions (agents : List (String × String)) : String :=
  String.intercalate "\n"
    (agents.map (fun a => "- " ++ registered_agent_name a.1 ++ ": " ++ a.2))

/-- The instruction text of `_get_system_instruction` (agent.py, lines
130-164) before the `{agent_descriptions}` hole. -/
def instruction_before_menu : String :=
  "\nRole: You are the Lead Orchestrator, an expert triage and coordination " ++
  "agent for incident response and operations management. Your primary " ++
  "function is to route user requests to the right specialist agent, track " ++
  "progress, and report back clearly.\n\nSpecialist Agents Available:\n\n"

/-- The instruction text between the `{agent_descriptions}` hole and the
first occurrence of `Monitoring_Agent`. -/
def instruction_directives_head : String :=
  "\n\nCore Directives:\n\n1. Initiate Triage: When asked for help, first " ++
  "clarify the objective and relevant scope (AWS account/region/service, " ++
  "time window, urgency).\n\n2. Task Delegation: Use the " ++
  "send_message_to_agent tool to contact the appropriate agent(s).\n   " ++
  "- Be explicit: e.g., \"Please scan CloudWatch logs and metrics for " ++
  "service X between 2024-08-01 and 2024-08-03.\"\n   - Always pass the " ++
  "official agent name ("

/-- The instruction text from after the first `Monitoring_Agent` up to the
`{datetime.now().strftime("%Y-%m-%d")}` hole. -/
def instruction_directives_tail : String :=
  ", OpsRemediation_Agent) when sending messages.\n\n3. Analyze Responses: " ++
  "Correlate findings from all contacted agents. Summarize root causes, " ++
  "evidence (metrics/logs), and proposed actions.\n\n4. Jira Workflow: If " ++
  "Monitoring_Agent reports an issue, ensure a Jira ticket is (or gets) " ++
  "created, capture the ticket ID, status, and assignee, and keep it " ++
  "updated as remediation proceeds.\n\n5. Propose and Confirm: Present " ++
  "recommended actions (and any risk/impact) to the user for confirmation. " ++
  "If the user has pre-approved runbooks, proceed accordingly.\n\n6. " ++
  "Execute Remediation: After confirmation, instruct OpsRemediation_Agent " ++
  "to perform the fix. Track outcomes and validation steps (post-fix " ++
  "metrics, log baselines).\n\n7. Transparent Communication: Relay " ++
  "progress and final results, including Jira IDs/links and any residual " ++
  "follow-ups. Do not ask for permission before contacting specialist " ++
  "agents.\n\n8. Tool Reliance: Strictly rely on available tools to " ++
  "fulfill requests. Do not invent results or act without agent/tool " ++
  "confirmation.\n\n9. Readability: Respond concisely, preferably with " ++
  "bullet points and short sections.\n\n10. Agent Selection: Choose the " ++
  "appropriate agent based on the task:\n    - Monitoring_Agent: For AWS " ++
  "metrics, logs, CloudWatch alarms, Jira ticket creation\n    - " ++
  "OpsRemediation_Agent: For searching remediation strategies, AWS " ++
  "documentation, troubleshooting guidance\n\nToday\x27s Date " ++
  "(YYYY-MM-DD): "

/-- `_get_system_instruction` (agent.py, lines 128-164): the f-string with
its two holes, `{agent_descriptions}` and the current date. -/
def _get_system_instruction (descriptions : String) (today : String) : String :=
  instruction_before_menu ++ descriptions ++
    (instruction_directives_head ++ "Monitoring_Agent" ++
      instruction_directives_tail) ++ today ++ "\n"

/-- C10: a sub-agent proxy is registered under the configured name converted
to lowercase (the trailing `replace('_', '_')` is the identity), not the
configured name verbatim; the menu shown to the routing policy uses those
lowercase names, while the orchestrator's instruction refers to the original
mixed-case names such as `Monitoring_Agent` verbatim. -/
theorem registered_name_lowercase_mismatch :
    (∀ s, registered_agent_name s = pyLower s) ∧
    registered_agent_name "Monitoring_Agent" = "monitoring_agent" ∧
    registered_agent_name "OpsRemediation_Agent" = "opsremediation_agent" ∧
    configured_agent_names.map registered_agent_name ≠ configured_agent_names ∧
    agent_descriptions [("Monitoring_Agent", "watches AWS")] =
      "- monitoring_agent: watches AWS" ∧
    (∀ d t, ∃ a b, _get_system_instruction d t =
        a ++ "Monitoring_Agent" ++ b) := by
  refine ⟨?_, by decide, by decide, by decide, by decide, ?_⟩
  · intro s
    have h : (fun c : Char => if c = '_' then '_' else c) = id := by
      funext c
      by_cases hc : c = '_' <;> simp [hc]
    simp [registered_agent_name, pyReplaceChar, h]
  · intro d t
    refine ⟨instruction_before_menu ++ d ++ instruction_directives_head,
      instruction_directives_tail ++ t ++ "\n", ?_⟩
    simp [_get_system_instruction, String.append_assoc]
